import Mathlib

/-!
Shallow embedding of `app.py` from the linkedin-extractor-app repository.

The two components under verification are:
* `get_authenticated_html` (the Session Fetcher): Playwright-driven page fetch
  with cookie injection, login-redirect detection, an ordered selector probe
  loop with first-match-wins and exception swallowing, and a full-page
  fallback, all inside `async with async_playwright()`.
* `extract_with_crawl4ai` (the Extraction Orchestrator): temp-file creation,
  secrets lookup, backend invocation, iteration over backend results with JSON
  parsing, and a `finally` block that unlinks the temp file, swallowing
  `OSError`.

External capabilities (the browser, the backend, `json.loads`, the secrets
store, the filesystem) are modelled as explicit inputs; Python exceptions are
modelled with `Except`.
-/

/-- Python's `pat in s` substring test on strings, as used by
`if "login" in current_url or "checkpoint" in current_url`. -/
def strContains (s pat : String) : Bool :=
  decide (pat.data <:+: s.data)

/-- Outcome of probing one selector on the live page: `error` models an
exception raised by `page.query_selector` or `feed_element.inner_html()`
(both are inside the same `try`), `notFound` models `query_selector`
returning `None`, and `found h` models a present element whose
`inner_html()` returned `h`. -/
inductive ProbeOutcome where
  | error : ProbeOutcome
  | notFound : ProbeOutcome
  | found (innerHtml : String) : ProbeOutcome
deriving DecidableEq

/-- The behaviour of the browser/page during one call of
`get_authenticated_html`: whether `page.goto`/the waits raise, the
post-navigation `page.url`, the outcome of probing each selector, whether
`page.content()` raises, and the full-page markup it would return. -/
structure BrowserRun where
  gotoRaises : Bool
  currentUrl : String
  probe : String → ProbeOutcome
  contentRaises : Bool
  content : String

/-- Observable trace of one call of `get_authenticated_html`:
whether `browser.close()` was reached, whether the
`async with async_playwright()` scope was exited (its `__aexit__` stops the
Playwright driver, which closes every browser it launched — this runs on
normal return and on exceptions alike), which selectors were probed, and
whether the full-page fallback capture ran. -/
structure FetchState where
  browserClosedExplicit : Bool
  engineExited : Bool
  probedSelectors : List String
  capturedFullPage : Bool
deriving DecidableEq

/-- The browser session is torn down when `browser.close()` ran or the
Playwright engine scope was exited (stopping the driver closes its
browsers). -/
def sessionTornDown (s : FetchState) : Bool :=
  s.browserClosedExplicit || s.engineExited

/-- The ordered selector candidate list `selectors_to_try` from the source. -/
def selectors_to_try : List String :=
  ["ul.display-flex.flex-wrap.list-style-none.justify-center",
   ".scaffold-finite-scroll__content",
   ".application-outlet main"]

/-- The `for selector in selectors_to_try` loop: probe each selector in
order; on `found h` set `feed_html := h` and `break`; on an exception or a
missing element, `continue`. Returns the found markup (if any) and the list
of selectors actually probed. -/
def probeLoop (probe : String → ProbeOutcome) : List String → Option String × List String
  | [] => (none, [])
  | s :: rest =>
    match probe s with
    | ProbeOutcome.found h => (some h, [s])
    | _ =>
      let r := probeLoop probe rest
      (r.1, s :: r.2)

/-- `Bool.true` when `probe` resolved the selector to a present element. -/
def ProbeOutcome.isFound : ProbeOutcome → Bool
  | ProbeOutcome.found _ => true
  | _ => false

/-- The body of the `async with async_playwright()` block in
`get_authenticated_html`: launch the browser, install the cookie, navigate
(`goto` and the waits may raise), check `page.url` for
`"login"`/`"checkpoint"` and on a match call `browser.close()` and
`return None`; otherwise run the selector loop, fall back to
`page.content()` when `feed_html` is falsy (absent, or the empty string —
Python's `if not feed_html:`), call `browser.close()` and return the markup.
The components of the trace tuple are: result, whether `browser.close()`
ran, the probed selectors, whether the full page was captured. -/
def fetch_body (run : BrowserRun) :
    Except Unit (Option String) × Bool × List String × Bool :=
  if run.gotoRaises then
    (Except.error (), false, [], false)
  else if strContains run.currentUrl "login" || strContains run.currentUrl "checkpoint" then
    (Except.ok none, true, [], false)
  else
    let pr := probeLoop run.probe selectors_to_try
    match pr.1 with
    | some h =>
      if h = "" then
        if run.contentRaises then (Except.error (), false, pr.2, false)
        else (Except.ok (some run.content), true, pr.2, true)
      else (Except.ok (some h), true, pr.2, false)
    | none =>
      if run.contentRaises then (Except.error (), false, pr.2, false)
      else (Except.ok (some run.content), true, pr.2, true)

/-- `get_authenticated_html` from `app.py`: the body runs inside
`async with async_playwright()`, whose `__aexit__` executes on every exit
path — normal return and exception alike — so `engineExited` is set
unconditionally around whatever the body did. -/
def get_authenticated_html (run : BrowserRun) : Except Unit (Option String) × FetchState :=
  let b := fetch_body run
  (b.1, ⟨b.2.1, true, b.2.2.1, b.2.2.2⟩)

/-- One record of the fixed extraction schema: seven optional string fields
(`"string or null"` each), as in the `schema` argument of
`LLMExtractionStrategy` and the fields displayed by `main_app`. -/
structure ExtractionRecord where
  apply_link : Option String
  eligibility : Option String
  company_name : Option String
  stipend : Option String
  job_title : Option String
  location : Option String
  timestamp : Option String
deriving DecidableEq

/-- One result object yielded by `crawler.arun`: a success flag and an
extracted-content string, the only fields `extract_with_crawl4ai` reads. -/
structure CrawlResult where
  success : Bool
  extracted_content : String
deriving DecidableEq

/-- Python exceptions that can escape the body of `extract_with_crawl4ai`:
`keyError` from `st.secrets["GROQ_API_KEY"]` when the secret is absent, and
`backendError` for an exception raised by the `AsyncWebCrawler` context or
`crawler.arun`. The body has no `except` clause, only `finally`. -/
inductive PyErr where
  | keyError : PyErr
  | backendError : PyErr
deriving DecidableEq

/-- What `extract_with_crawl4ai` hands back on a non-exception path:
`val rs` for `return data` (the value `json.loads` produced), `emptyList`
for a literal `return []`, and `noneVal` for the implicit `return None`
reached when the `for result in results` loop finds no result object. -/
inductive ExtractRet where
  | val (records : List ExtractionRecord) : ExtractRet
  | emptyList : ExtractRet
  | noneVal : ExtractRet
deriving DecidableEq

/-- The environment of one call of `extract_with_crawl4ai`: whether the
`GROQ_API_KEY` secret is present, the outcome of the backend call (a raised
exception or a list of result objects), and the behaviour of `json.loads`
on strings (`none` models `json.JSONDecodeError`). -/
structure ExtractEnv where
  secretPresent : Bool
  backend : Except Unit (List CrawlResult)
  parse : String → Option (List ExtractionRecord)

/-- Observable trace of one call of `extract_with_crawl4ai`: its return or
escaping exception, whether the temporary file still exists after the call,
and the raw content surfaced via `st.json` on a JSON parse failure. -/
structure ExtractTrace where
  ret : Except PyErr ExtractRet
  fileExistsAfter : Bool
  rawSurfaced : Option String

/-- `os.unlink` on the temporary file path, keyed by whether the file is
present: deleting a present file succeeds (file gone), deleting an absent
file raises `FileNotFoundError`, a subclass of `OSError`. The returned
`Bool` is whether the file is present afterwards. -/
def os_unlink (present : Bool) : Except Unit Bool :=
  if present then Except.ok false else Except.error ()

/-- The `finally` block of `extract_with_crawl4ai`:
`try: os.unlink(temp_html_path) except OSError: pass`. The `OSError` is
swallowed, so this never raises; the result is the file's presence after
the attempt. -/
def cleanup_attempt (present : Bool) : Except Unit Bool :=
  match os_unlink present with
  | Except.ok after => Except.ok after
  | Except.error _ => Except.ok present

/-- The `for result in results` loop body: for the first result object, if
`result.success` then `json.loads` its content and `return data`, or on
`JSONDecodeError` show the raw content and `return []`; otherwise
`return []`. Every branch returns, so iteration never reaches a second
result; an empty list falls through to the implicit `return None`. Returns
the function result paired with the raw content surfaced (if any). -/
def resultsLoop (parse : String → Option (List ExtractionRecord)) :
    List CrawlResult → ExtractRet × Option String
  | [] => (ExtractRet.noneVal, none)
  | r :: _ =>
    if r.success then
      match parse r.extracted_content with
      | some data => (ExtractRet.val data, none)
      | none => (ExtractRet.emptyList, some r.extracted_content)
    else (ExtractRet.emptyList, none)

/-- `extract_with_crawl4ai` from `app.py`. It writes the wrapped fragment to
a fresh temporary file (so the file is present when the `try` body starts),
then in the `try` body reads the secret (raising `KeyError` when absent),
calls the backend (whose exception propagates), and runs the results loop;
the `finally` block unlinks the temporary file on every path, success,
failure and exception alike, swallowing `OSError`. -/
def extract_with_crawl4ai (env : ExtractEnv) : ExtractTrace :=
  let body : Except PyErr ExtractRet × Option String :=
    if env.secretPresent then
      match env.backend with
      | Except.error _ => (Except.error PyErr.backendError, none)
      | Except.ok results =>
        let lp := resultsLoop env.parse results
        (Except.ok lp.1, lp.2)
    else (Except.error PyErr.keyError, none)
  let fileAfter : Bool :=
    match cleanup_attempt true with
    | Except.ok after => after
    | Except.error _ => true
  ⟨body.1, fileAfter, body.2⟩

/-- Python truthiness of `html_content` in `main_app`: `None` and the empty
string are falsy, any other string truthy. -/
def pyTruthyStrOpt : Option String → Bool
  | none => false
  | some s => s ≠ ""

/-- Whether `main_app` invokes `extract_with_crawl4ai`, as a function of the
outcome of `get_authenticated_html`: the call sits under
`if html_content:` inside the top-level `try`, whose `except` shows the
exception and skips extraction. -/
def main_app_runs_extraction (fetchOutcome : Except Unit (Option String)) : Bool :=
  match fetchOutcome with
  | Except.error _ => false
  | Except.ok html => pyTruthyStrOpt html

/-- When no selector in the list resolves to a present element, the loop
probes every selector and finds nothing. -/
theorem probeLoop_none (pb : String → ProbeOutcome) (l : List String)
    (hmiss : ∀ s ∈ l, (pb s).isFound = false) : probeLoop pb l = (none, l) := by
  induction l with
  | nil => rfl
  | cons s rest ih =>
    have hs : (pb s).isFound = false := hmiss s (List.mem_cons_self s rest)
    have hrest : ∀ t ∈ rest, (pb t).isFound = false :=
      fun t ht => hmiss t (List.mem_cons_of_mem s ht)
    cases hpb : pb s with
    | found m => rw [hpb] at hs; exact absurd hs (by simp [ProbeOutcome.isFound])
    | error => simp [probeLoop, hpb, ih hrest]
    | notFound => simp [probeLoop, hpb, ih hrest]

/-- A `json.loads` model for concrete witnesses: accepts only the literal
`"[]"` (the empty JSON array), rejecting everything else. -/
def parseEmptyOnly : String → Option (List ExtractionRecord) :=
  fun s => if s = "[]" then some [] else none

/-- A `json.loads` model that rejects every string. -/
def parseNothing : String → Option (List ExtractionRecord) :=
  fun _ => none

/-- A concrete browser run whose post-navigation URL is the login page. -/
def authFailRun : BrowserRun :=
  ⟨false, "https://www.linkedin.com/login", fun _ => ProbeOutcome.notFound, false, "PAGE"⟩

/-- A concrete browser run where the first candidate selector resolves to a
present element whose inner markup is empty. -/
def emptyInnerRun : BrowserRun :=
  ⟨false, "https://www.linkedin.com/in/someone/recent-activity/all/",
   fun s => if s = "ul.display-flex.flex-wrap.list-style-none.justify-center"
            then ProbeOutcome.found "" else ProbeOutcome.notFound,
   false, "FULL PAGE MARKUP"⟩

/-- A concrete browser run where the first candidate selector resolves to a
present element with non-empty inner markup. -/
def firstSelRun : BrowserRun :=
  ⟨false, "https://www.linkedin.com/in/someone/recent-activity/all/",
   fun s => if s = "ul.display-flex.flex-wrap.list-style-none.justify-center"
            then ProbeOutcome.found "INNER" else ProbeOutcome.error,
   false, "FULL PAGE MARKUP"⟩

/-- A concrete browser run where probing the first selector raises, the
second finds no element, and the third finds no element. -/
def allMissRun : BrowserRun :=
  ⟨false, "https://www.linkedin.com/in/someone/recent-activity/all/",
   fun s => if s = "ul.display-flex.flex-wrap.list-style-none.justify-center"
            then ProbeOutcome.error else ProbeOutcome.notFound,
   false, "FULL PAGE MARKUP"⟩

/-- Claim C1, counterexample: with the secret absent (and the backend set to
return no results), `extract_with_crawl4ai` propagates a `KeyError` to its
caller instead of returning an empty result sequence. -/
theorem C1_counterexample :
    (extract_with_crawl4ai ⟨false, Except.ok [], parseNothing⟩).ret
      = Except.error PyErr.keyError
    ∧ Except.error PyErr.keyError
      ≠ (Except.ok ExtractRet.emptyList : Except PyErr ExtractRet) :=
  ⟨rfl, fun hcontra => nomatch hcontra⟩

/-- Claim C1 as amended: `extract_with_crawl4ai` returns an empty sequence on
a backend-reported failure and on unparsable content, but a missing secret
raises `KeyError` to the caller, an exception from the backend call
propagates to the caller, and a backend response with no result objects
yields Python `None` (a non-sequence) rather than an empty sequence. -/
theorem C1_amended_behaviour (p : String → Option (List ExtractionRecord))
    (c : String) (results : List CrawlResult) :
    (extract_with_crawl4ai ⟨false, Except.ok results, p⟩).ret = Except.error PyErr.keyError
    ∧ (extract_with_crawl4ai ⟨true, Except.error (), p⟩).ret = Except.error PyErr.backendError
    ∧ (extract_with_crawl4ai ⟨true, Except.ok [], p⟩).ret = Except.ok ExtractRet.noneVal
    ∧ (extract_with_crawl4ai ⟨true, Except.ok [⟨false, c⟩], p⟩).ret
        = Except.ok ExtractRet.emptyList
    ∧ (p c = none →
        (extract_with_crawl4ai ⟨true, Except.ok [⟨true, c⟩], p⟩).ret
          = Except.ok ExtractRet.emptyList) := by
  refine ⟨rfl, rfl, rfl, rfl, fun hp => ?_⟩
  simp [extract_with_crawl4ai, resultsLoop, hp]

/-- Claim C1, witness for the amended claim at a concrete input: a successful
backend result whose content `"not json"` fails to parse yields an empty
sequence. -/
theorem C1_amended_witness :
    (extract_with_crawl4ai ⟨true, Except.ok [⟨true, "not json"⟩], parseNothing⟩).ret
      = Except.ok ExtractRet.emptyList :=
  (C1_amended_behaviour parseNothing "not json" []).2.2.2.2 rfl

/-- Claim C2: whenever navigation succeeds and the post-navigation URL
contains `"login"` or `"checkpoint"`, `get_authenticated_html` returns the
auth-failure sentinel `None`, probes no selector, captures no page, and
`main_app` never invokes the extraction orchestrator on that run. -/
theorem C2_auth_failure (run : BrowserRun) (hg : run.gotoRaises = false)
    (hu : (strContains run.currentUrl "login" || strContains run.currentUrl "checkpoint")
            = true) :
    (get_authenticated_html run).1 = Except.ok none
    ∧ (get_authenticated_html run).2.probedSelectors = []
    ∧ (get_authenticated_html run).2.capturedFullPage = false
    ∧ main_app_runs_extraction (get_authenticated_html run).1 = false := by
  simp [get_authenticated_html, fetch_body, hg, hu, main_app_runs_extraction, pyTruthyStrOpt]

/-- Claim C2, witness: the concrete run redirected to the login URL. -/
theorem C2_auth_failure_witness :
    (get_authenticated_html authFailRun).1 = Except.ok none
    ∧ (get_authenticated_html authFailRun).2.probedSelectors = []
    ∧ (get_authenticated_html authFailRun).2.capturedFullPage = false
    ∧ main_app_runs_extraction (get_authenticated_html authFailRun).1 = false :=
  C2_auth_failure authFailRun rfl (by decide)

/-- Claim C3: the browser session is torn down on every exit path of
`get_authenticated_html` — success, auth failure, and exceptions during
navigation, waiting or probing alike — because the Playwright scope exit
runs unconditionally. -/
theorem C3_session_teardown (run : BrowserRun) :
    sessionTornDown (get_authenticated_html run).2 = true := by
  simp [sessionTornDown, get_authenticated_html]

/-- Claim C4, counterexample: on a page whose first candidate selector
resolves to a present element with empty inner markup, the code's
`if not feed_html:` truthiness check falls through to the full-page
fallback, so `get_authenticated_html` returns the full page markup, not the
element's (empty) inner markup. -/
theorem C4_counterexample :
    emptyInnerRun.probe "ul.display-flex.flex-wrap.list-style-none.justify-center"
      = ProbeOutcome.found ""
    ∧ (get_authenticated_html emptyInnerRun).1 = Except.ok (some "FULL PAGE MARKUP")
    ∧ "FULL PAGE MARKUP" ≠ "" := by
  refine ⟨by decide, by rfl, by decide⟩

/-- Claim C4 as amended: when the first candidate selector resolves to a
present element whose inner markup is non-empty, `get_authenticated_html`
returns exactly that inner markup (not the full page), probes no later
selector, and does not capture the full page; and an exception while
probing any selector is treated as that selector not resolving, probing
continuing with the next candidate. -/
theorem C4_first_selector_wins (run : BrowserRun) (hg : run.gotoRaises = false)
    (hu : (strContains run.currentUrl "login" || strContains run.currentUrl "checkpoint")
            = false)
    (h : String)
    (hp : run.probe "ul.display-flex.flex-wrap.list-style-none.justify-center"
            = ProbeOutcome.found h)
    (hne : h ≠ "") :
    ((get_authenticated_html run).1 = Except.ok (some h)
      ∧ (get_authenticated_html run).2.probedSelectors
          = ["ul.display-flex.flex-wrap.list-style-none.justify-center"]
      ∧ (get_authenticated_html run).2.capturedFullPage = false)
    ∧ ∀ (pb : String → ProbeOutcome) (s : String) (rest : List String),
        pb s = ProbeOutcome.error →
        probeLoop pb (s :: rest) = ((probeLoop pb rest).1, s :: (probeLoop pb rest).2) := by
  constructor
  · simp [get_authenticated_html, fetch_body, hg, hu, probeLoop, selectors_to_try, hp, hne]
  · intro pb s rest hpe
    simp [probeLoop, hpe]

/-- Claim C4, witness for the amended claim: the concrete run whose first
selector resolves with inner markup `"INNER"`. -/
theorem C4_first_selector_wins_witness :
    (get_authenticated_html firstSelRun).1 = Except.ok (some "INNER")
    ∧ (get_authenticated_html firstSelRun).2.probedSelectors
        = ["ul.display-flex.flex-wrap.list-style-none.justify-center"]
    ∧ (get_authenticated_html firstSelRun).2.capturedFullPage = false :=
  (C4_first_selector_wins firstSelRun rfl (by decide) "INNER" (by decide) (by decide)).1

/-- Claim C5: when navigation succeeds, the URL is not a login/checkpoint
redirect, no candidate selector resolves to a present element, and the
full-page capture itself does not fail, `get_authenticated_html` returns
the full page markup as a non-error result. -/
theorem C5_full_page_fallback (run : BrowserRun) (hg : run.gotoRaises = false)
    (hu : (strContains run.currentUrl "login" || strContains run.currentUrl "checkpoint")
            = false)
    (hmiss : ∀ s ∈ selectors_to_try, ((run.probe s).isFound) = false)
    (hc : run.contentRaises = false) :
    (get_authenticated_html run).1 = Except.ok (some run.content)
    ∧ (get_authenticated_html run).2.capturedFullPage = true := by
  have hloop : probeLoop run.probe selectors_to_try = (none, selectors_to_try) :=
    probeLoop_none run.probe selectors_to_try hmiss
  simp [get_authenticated_html, fetch_body, hg, hu, hloop, hc]

/-- Claim C5, witness: the concrete run where the first probe raises and the
other two selectors find nothing. -/
theorem C5_full_page_fallback_witness :
    (get_authenticated_html allMissRun).1 = Except.ok (some "FULL PAGE MARKUP")
    ∧ (get_authenticated_html allMissRun).2.capturedFullPage = true :=
  C5_full_page_fallback allMissRun rfl (by decide) (by decide) rfl

/-- Claim C6: after every invocation of `extract_with_crawl4ai` the
temporary file no longer exists — the `finally` block runs on success,
failure and exception paths alike — and the deletion attempt never raises,
whether the file is still present or already gone. -/
theorem C6_temp_file_cleanup :
    (∀ env : ExtractEnv, (extract_with_crawl4ai env).fileExistsAfter = false)
    ∧ (∀ present : Bool, cleanup_attempt present = Except.ok false) :=
  ⟨fun _ => rfl, fun present => by cases present <;> rfl⟩

/-- Claim C7: a backend response whose first result object has a true
success flag but whose extracted content fails to parse as JSON makes
`extract_with_crawl4ai` return the empty sequence and surface the raw
unparsed content for diagnosis, with no exception escaping. -/
theorem C7_parse_failure_degrades (p : String → Option (List ExtractionRecord))
    (c : String) (rest : List CrawlResult) (hp : p c = none) :
    (extract_with_crawl4ai ⟨true, Except.ok (⟨true, c⟩ :: rest), p⟩).ret
      = Except.ok ExtractRet.emptyList
    ∧ (extract_with_crawl4ai ⟨true, Except.ok (⟨true, c⟩ :: rest), p⟩).rawSurfaced
      = some c := by
  constructor <;> simp [extract_with_crawl4ai, resultsLoop, hp]

/-- Claim C7, witness: the parser that accepts only `"[]"` rejects
`"not json"`, so the call degrades to an empty sequence and surfaces the
raw string. -/
theorem C7_parse_failure_degrades_witness :
    (extract_with_crawl4ai ⟨true, Except.ok [⟨true, "not json"⟩], parseEmptyOnly⟩).ret
      = Except.ok ExtractRet.emptyList
    ∧ (extract_with_crawl4ai ⟨true, Except.ok [⟨true, "not json"⟩], parseEmptyOnly⟩).rawSurfaced
      = some "not json" :=
  C7_parse_failure_degrades parseEmptyOnly "not json" [] (by decide)

/-- Claim C8: a backend response whose first result object carries a false
success flag makes `extract_with_crawl4ai` return the empty sequence. -/
theorem C8_backend_failure_empty (p : String → Option (List ExtractionRecord))
    (c : String) (rest : List CrawlResult) :
    (extract_with_crawl4ai ⟨true, Except.ok (⟨false, c⟩ :: rest), p⟩).ret
      = Except.ok ExtractRet.emptyList := rfl

/-- Claim C9: `extract_with_crawl4ai` consults only the first result object
of the backend response — its return value and surfaced raw content are
unchanged under any replacement of the remaining result objects. -/
theorem C9_only_first_result (sp : Bool) (p : String → Option (List ExtractionRecord))
    (r : CrawlResult) (rest restAlt : List CrawlResult) :
    (extract_with_crawl4ai ⟨sp, Except.ok (r :: rest), p⟩).ret
      = (extract_with_crawl4ai ⟨sp, Except.ok (r :: restAlt), p⟩).ret
    ∧ (extract_with_crawl4ai ⟨sp, Except.ok (r :: rest), p⟩).rawSurfaced
      = (extract_with_crawl4ai ⟨sp, Except.ok (r :: restAlt), p⟩).rawSurfaced :=
  ⟨rfl, rfl⟩

/-- Claim C10: `main_app` invokes the extraction orchestrator exactly when
`get_authenticated_html` returned a truthy fragment — a `None` sentinel, an
empty-string fragment, and a propagated exception all skip extraction. -/
theorem C10_extraction_gate (fetchOutcome : Except Unit (Option String)) :
    main_app_runs_extraction fetchOutcome = true
      ↔ ∃ h, fetchOutcome = Except.ok (some h) ∧ h ≠ "" := by
  cases fetchOutcome with
  | error e => simp [main_app_runs_extraction]
  | ok html =>
    cases html with
    | none => simp [main_app_runs_extraction, pyTruthyStrOpt]
    | some s => simp [main_app_runs_extraction, pyTruthyStrOpt]
